import Mathlib

/-!
Shallow embedding of the Argus arbitrage-monitoring engine (Rust) in Lean 4.

Modelling conventions:
* `rust_decimal::Decimal` values are modelled as `ℚ`.  All Decimal
  operations used by the embedded code (addition, subtraction,
  multiplication, division, comparison, `abs`) are modelled exactly;
  `Decimal` division in the source rounds to 28 significant digits and
  panics on a zero divisor, neither of which is exercised by the
  properties proved here except where explicitly noted.
* `u128`/`U256` arithmetic is modelled on `ℕ`.  Rust's checked arithmetic
  panics on overflow instead of producing a value, so every value the
  source actually returns agrees with the unbounded model; theorems that
  depend on a machine bound carry it as an explicit hypothesis.
* `f64` arithmetic (used by the source only for the concentrated-liquidity
  spot price `(sqrt_price_x96 / 2^96)^2 * 1e12`) is modelled as exact
  rational arithmetic, which is the mathematical function the floating
  point code approximates.
* Fallible Rust functions returning `Result<T, ArgusError>` become
  `Except ArgusError T`; the error payload strings are carried verbatim
  because several distinct failures share the `CalculationError`
  constructor and differ only in the message.
* Byte sequences returned by contract calls become `List ℕ` (each entry a
  byte value `< 256`; theorems that need the bound state it).
-/

/-- Error taxonomy from `src/models/mod.rs` (`ArgusError`). -/
inductive ArgusError where
  | rpcError : String → ArgusError
  | cexApiError : String → ArgusError
  | contractError : String → ArgusError
  | calculationError : String → ArgusError
  | configError : String → ArgusError
  | unknown : String → ArgusError
deriving DecidableEq, Repr

/-- `SwapQuote` from `src/dex/mod.rs`: result of a swap-output computation. -/
structure SwapQuote where
  amount_out : ℚ
  effective_price : ℚ
  price_impact : ℚ
  gas_estimate : ℕ
deriving DecidableEq, Repr

/-- `PoolState` from `src/dex/mod.rs`. -/
structure PoolState where
  sqrt_price_x96 : ℕ
  tick : ℤ
  liquidity : ℕ
  fee : ℕ
deriving DecidableEq, Repr

/-- `RecommendedAction` from `src/models/mod.rs`. -/
inductive RecommendedAction where
  | arbitrageDetected
  | noArbitrage
deriving DecidableEq, Repr

/-- `ArbitrageSummary` from `src/models/mod.rs`. -/
structure ArbitrageSummary where
  potential_profit_usd : ℚ
  total_gas_cost_usd : ℚ
  net_profit_usd : ℚ
  recommended_action : RecommendedAction
deriving DecidableEq, Repr

instance {ε α : Type} [DecidableEq ε] [DecidableEq α] :
    DecidableEq (Except ε α) := fun x y =>
  match x, y with
  | .ok a, .ok b =>
    if h : a = b then .isTrue (by rw [h]) else .isFalse (by simp [h])
  | .error a, .error b =>
    if h : a = b then .isTrue (by rw [h]) else .isFalse (by simp [h])
  | .ok _, .error _ => .isFalse (by simp)
  | .error _, .ok _ => .isFalse (by simp)

/-- `calculate_price_impact` from `src/utils/mod.rs`. -/
def calculate_price_impact (amount_in amount_out spot_price : ℚ) : ℚ :=
  let expected_out := amount_in * spot_price
  if expected_out = 0 then 0
  else (expected_out - amount_out) / expected_out * 100

/-- `Decimal::round_dp(0)` with the default `MidpointNearestEven`
(banker's) strategy: round to the nearest integer, ties to the even
integer. -/
def round_dp0 (q : ℚ) : ℤ :=
  let f := Int.floor q
  let r := q - f
  if r < 1/2 then f
  else if 1/2 < r then f + 1
  else if f % 2 = 0 then f else f + 1

/-- Big-endian byte-sequence decoding, as `U256::from_big_endian`. -/
def beBytesToNat (bs : List ℕ) : ℕ :=
  bs.foldl (fun acc b => acc * 256 + b) 0

namespace Aerodrome

/-- `AerodromeClient::get_amount_out` (`src/dex/aerodrome/pool.rs`,
lines 123-138): fee-adjusted constant-product output in the
smallest-unit integer domain.  `u128` division is `ℕ` division
(truncation toward zero). -/
def get_amount_out (amount_in reserve_in reserve_out : ℕ) :
    Except ArgusError ℕ :=
  if reserve_in = 0 ∨ reserve_out = 0 then
    .error (.calculationError "Insufficient liquidity")
  else
    let amount_in_with_fee := amount_in * 9999 / 10000
    let numerator := amount_in_with_fee * reserve_out
    let denominator := reserve_in + amount_in_with_fee
    if denominator = 0 then
      .error (.calculationError "Division by zero")
    else
      .ok (numerator / denominator)

/-- The pure part of `AerodromeClient::get_reserves`
(`src/dex/aerodrome/pool.rs`, lines 33-61), applied to the byte
sequence returned by the `getReserves()` call.  `U256::as_u128` panics
when a word does not fit in 128 bits; theorems that need it assume both
words are below `2^128`. -/
def get_reserves (result : List ℕ) : Except ArgusError (ℕ × ℕ) :=
  if result.length < 64 then
    .error (.contractError "Invalid reserves response - insufficient data")
  else
    let r0 := beBytesToNat (result.take 32)
    let r1 := beBytesToNat ((result.drop 32).take 32)
    if r0 = 0 ∨ r1 = 0 then
      .error (.contractError "Pool has no liquidity")
    else
      .ok (r0, r1)

/-- The pure part of `AerodromeClient::calculate_swap_output`
(`src/dex/aerodrome/pool.rs`, lines 80-115), taking the two decoded
reserves in place of the `get_reserves` contract call.  The source
scales the decimal input by `10^18`, rounds with `round_dp(0)`, prints
the result and re-parses it as `u128`; the parse fails (and the source
returns `CalculationError`) exactly when the rounded value is negative
or does not fit in 128 bits.  The spot-price step
`Decimal::from(reserve1) / Decimal::from(reserve0)` additionally panics
in the source for any reserve above `rust_decimal`'s 96-bit mantissa
cap (about `7.92 * 10^28`); theorems evaluating this function keep both
reserves below that cap so the source actually returns. -/
def calculate_swap_output (reserve0 reserve1 : ℕ) (amount_in : ℚ)
    (zero_for_one : Bool) : Except ArgusError SwapQuote :=
  let scaled := round_dp0 (amount_in * 1000000000000000000)
  if scaled < 0 ∨ 2 ^ 128 ≤ scaled then
    .error (.calculationError "Failed to parse amount")
  else
    let amount_in_wei := scaled.toNat
    let reserve_in := if zero_for_one then reserve0 else reserve1
    let reserve_out := if zero_for_one then reserve1 else reserve0
    match get_amount_out amount_in_wei reserve_in reserve_out with
    | .error e => .error e
    | .ok amount_out =>
      let amount_out_decimal : ℚ := (amount_out : ℚ) / 1000000
      let spot_price : ℚ :=
        (reserve1 : ℚ) / (reserve0 : ℚ) * 1000000000000
      let effective_price :=
        if 0 < amount_in then amount_out_decimal / amount_in else 3000
      let price_impact :=
        calculate_price_impact amount_in amount_out_decimal spot_price
      .ok ⟨amount_out_decimal, effective_price, price_impact, 80000⟩

/-- The effective price implied by the fee-adjusted constant-product
formula of `get_amount_out` carried out in exact rational arithmetic,
i.e. with the two integer truncations (the fee division by `10000` and
the final division) removed: output `(a*(9999/10000))*rOut /
(rIn + a*(9999/10000))` divided by the input `a`. -/
def effective_price_exact (reserve_in reserve_out amount_in : ℚ) : ℚ :=
  let amount_in_with_fee := amount_in * (9999 / 10000)
  amount_in_with_fee * reserve_out /
    (reserve_in + amount_in_with_fee) / amount_in

end Aerodrome

namespace UniswapV4

/-- Tick extraction from `UniswapV4Client::read_slot0`
(`src/dex/uniswap_v4/pool.rs`, lines 81-92), applied to the low three
bytes of the tick word (indices 29, 30, 31).  On byte values `< 256`
the source's bitwise ORs of disjoint shifted bytes equal the sums used
here, and `val | 0xFF00_0000u32 as i32` equals `val - 2^24` for
`0 ≤ val < 2^24`. -/
def decode_tick_i24 (b29 b30 b31 : ℕ) : ℤ :=
  let val : ℤ := (b29 : ℤ) * 65536 + (b30 : ℤ) * 256 + (b31 : ℤ)
  if 128 ≤ b29 then val - 16777216 else val

/-- 24-bit unsigned decoding of the low three bytes of a fee word, as in
`read_slot0`'s protocol-fee and LP-fee extraction. -/
def decode_fee24 (b29 b30 b31 : ℕ) : ℕ :=
  b29 * 65536 + b30 * 256 + b31

/-- The pure part of `UniswapV4Client::read_slot0`
(`src/dex/uniswap_v4/pool.rs`, lines 52-102), applied to the byte
sequence returned by the `getSlot0(bytes32)` call: sqrt price from the
first word, tick from bytes 29-31 of the second word, protocol fee and
LP fee from bytes 29-31 of the third and fourth words.  `U256::as_u128`
panics when the sqrt-price word exceeds 128 bits; theorems that need it
assume the bound. -/
def read_slot0 (result : List ℕ) :
    Except ArgusError (ℕ × ℤ × ℕ × ℕ) :=
  if result.length < 128 then
    .error (.contractError "Invalid slot0 response")
  else
    let sqrt_price := beBytesToNat (result.take 32)
    let tick :=
      decode_tick_i24 (result.getD 61 0) (result.getD 62 0) (result.getD 63 0)
    let protocol_fee :=
      decode_fee24 (result.getD 93 0) (result.getD 94 0) (result.getD 95 0)
    let lp_fee :=
      decode_fee24 (result.getD 125 0) (result.getD 126 0) (result.getD 127 0)
    .ok (sqrt_price, tick, protocol_fee, lp_fee)

/-- The pure part of `UniswapV4Client::read_liquidity`
(`src/dex/uniswap_v4/pool.rs`, lines 104-127), applied to the byte
sequence returned by the `getLiquidity(bytes32)` call.  Note: the
source performs no zero check on the decoded value. -/
def read_liquidity (result : List ℕ) : Except ArgusError ℕ :=
  if result.length < 32 then
    .error (.contractError "Invalid liquidity response")
  else
    .ok (beBytesToNat (result.take 32))

/-- `UniswapV4Client::get_pool_state_internal`
(`src/dex/uniswap_v4/pool.rs`, lines 40-50), applied to the two contract
responses: assembles the `PoolState` from `read_slot0` and
`read_liquidity` with no further validation. -/
def get_pool_state_internal (slot0_result liquidity_result : List ℕ) :
    Except ArgusError PoolState :=
  match read_slot0 slot0_result with
  | .error e => .error e
  | .ok slot0_data =>
    match read_liquidity liquidity_result with
    | .error e => .error e
    | .ok liquidity =>
      .ok ⟨slot0_data.1, slot0_data.2.1, liquidity, slot0_data.2.2.2⟩

/-- The pure part of `UniswapV4Client::calculate_swap_output`
(`src/dex/uniswap_v4/pool.rs`, lines 136-174), taking the fetched
`PoolState` in place of the `get_pool_state` contract calls.  The `f64`
spot-price step is modelled as exact rational arithmetic; the
`Decimal::try_from(..).unwrap_or(3000)` fallback is unreachable in this
model.  `Decimal` division by zero (reachable only for `amount_in ≠ 0`,
`zero_for_one = false`, and a zero spot price) panics in the source;
here `ℚ` division by zero yields zero. -/
def calculate_swap_output (pool_state : PoolState) (amount_in : ℚ)
    (zero_for_one : Bool) : SwapQuote :=
  let sqrt_price : ℚ := (pool_state.sqrt_price_x96 : ℚ) / 2 ^ 96
  let spot_price : ℚ := sqrt_price * sqrt_price * 1000000000000
  let price_impact_percent :=
    if 0 < amount_in then amount_in / 10 * (1 / 1000) else 0
  let effective_price :=
    if zero_for_one then spot_price * (1 - price_impact_percent)
    else spot_price * (1 + price_impact_percent)
  let amount_out :=
    if zero_for_one then amount_in * effective_price
    else amount_in / effective_price
  let fee_multiplier := 1 - (pool_state.fee : ℚ) / 1000000
  ⟨amount_out * fee_multiplier, effective_price, price_impact_percent, 150000⟩

end UniswapV4

/-- `RpcClient::get_typical_swap_gas` (`src/rpc/mod.rs`, lines 70-90):
fixed per-chain gas-unit table; unknown chain identifiers fail. -/
def get_typical_swap_gas (chain_id : ℕ) : Except ArgusError ℕ :=
  if chain_id = 1 then .ok 150000
  else if chain_id = 8453 then .ok 80000
  else .error (.rpcError "Unsupported chain ID")

/-- The pure part of `ArbitrageService::estimate_gas_usd_eth_swap`
(`src/service.rs`, lines 147-175), taking the fetched fee data in place
of the RPC calls: the latest block's base fee (`none` when the block
carries no base fee), the priority-fee query result, and the reference
(ETH/USD) price.  The Ethereum RPC client is constructed with chain id
1, fixing the typical-gas lookup. -/
def estimate_gas_usd_eth_swap (base_fee_per_gas : Option ℕ)
    (priority_fee : ℕ) (eth_price_usd : ℚ) : Except ArgusError ℚ :=
  match base_fee_per_gas with
  | none => .error (.rpcError "Cannot get base fee from RPC")
  | some base_fee =>
    match get_typical_swap_gas 1 with
    | .error e => .error e
    | .ok gas_estimate_raw =>
      let gas_price_wei := base_fee + priority_fee
      let gas_with_buffer := gas_estimate_raw * 110 / 100
      let cost_wei := gas_with_buffer * gas_price_wei
      let cost_eth : ℚ := (cost_wei : ℚ) / 1000000000000000000
      .ok (cost_eth * eth_price_usd)

/-- The pure part of `ArbitrageService::estimate_gas_usd_base_swap`
(`src/service.rs`, lines 177-218), taking the fetched fee data and the
L1 data-availability fee (in wei) in place of the RPC calls.  The Base
RPC client is constructed with chain id 8453, fixing the typical-gas
lookup. -/
def estimate_gas_usd_base_swap (base_fee_per_gas : Option ℕ)
    (priority_fee l1_data_fee_wei : ℕ) (eth_price_usd : ℚ) :
    Except ArgusError ℚ :=
  match base_fee_per_gas with
  | none => .error (.rpcError "Cannot get base fee from Base RPC")
  | some base_fee =>
    match get_typical_swap_gas 8453 with
    | .error e => .error e
    | .ok l2_gas_estimate_raw =>
      let l2_gas_price_wei := base_fee + priority_fee
      let l2_gas_with_buffer := l2_gas_estimate_raw * 110 / 100
      let l2_cost_wei := l2_gas_with_buffer * l2_gas_price_wei
      let total_cost_wei := l2_cost_wei + l1_data_fee_wei
      let total_cost_eth : ℚ := (total_cost_wei : ℚ) / 1000000000000000000
      .ok (total_cost_eth * eth_price_usd)

/-- `ArbitrageAnalyzer` (`src/analytics/mod.rs`): a long-lived object
holding one mutable field, the cached ETH/USD reference price. -/
structure ArbitrageAnalyzer where
  eth_price_usd : ℚ
deriving DecidableEq, Repr

namespace ArbitrageAnalyzer

/-- `ArbitrageAnalyzer::new`: the stored price starts at zero. -/
def new : ArbitrageAnalyzer := ⟨0⟩

/-- `ArbitrageAnalyzer::update_eth_price`: overwrites the stored price. -/
def update_eth_price (_self : ArbitrageAnalyzer) (price : ℚ) :
    ArbitrageAnalyzer := ⟨price⟩

/-- `ArbitrageAnalyzer::analyze_opportunity_with_gas`
(`src/analytics/mod.rs`, lines 32-63).  The `_cex_price` argument is
present in the source signature and unused; the stored
`eth_price_usd` field is not read. -/
def analyze_opportunity_with_gas (_self : ArbitrageAnalyzer)
    (uniswap_quote aerodrome_quote : SwapQuote)
    (trade_size_eth _cex_price eth_gas_cost_usd base_gas_cost_usd : ℚ) :
    Except ArgusError ArbitrageSummary :=
  let uniswap_price := uniswap_quote.effective_price
  let aerodrome_price := aerodrome_quote.effective_price
  let price_diff_per_eth := |uniswap_price - aerodrome_price|
  let potential_profit_usd := price_diff_per_eth * trade_size_eth
  let total_gas_cost_usd := eth_gas_cost_usd + base_gas_cost_usd
  let net_profit_usd := potential_profit_usd - total_gas_cost_usd
  let recommended_action :=
    if 0 < net_profit_usd then RecommendedAction.arbitrageDetected
    else RecommendedAction.noArbitrage
  .ok ⟨potential_profit_usd, total_gas_cost_usd, net_profit_usd,
       recommended_action⟩

/-- `ArbitrageAnalyzer::wei_to_usd` (`src/analytics/mod.rs`, lines
65-70): reads the stored reference price. -/
def wei_to_usd (self : ArbitrageAnalyzer) (wei : ℕ) :
    Except ArgusError ℚ :=
  let eth_amount : ℚ := (wei : ℚ) / 1000000000000000000
  .ok (eth_amount * self.eth_price_usd)

end ArbitrageAnalyzer

theorem round_dp0_intCast (n : ℤ) : round_dp0 (n : ℚ) = n := by
  simp [round_dp0]

/-- C1: for every pair of swap quotes with effective prices `pA` and `pB`,
every trade size `s`, and per-venue gas costs `gA` and `gB`, the analyzer
returns `potentialProfit = |pA - pB| * s`, `totalGasCost = gA + gB`,
`netProfit = potentialProfit - totalGasCost`, and recommends
`ArbitrageDetected` iff `netProfit > 0` (ties yield `NoArbitrage`); the
concrete instance `pA=3010, pB=3000, s=10, gA=5, gB=3` yields
`(100, 8, 92, ArbitrageDetected)`. -/
theorem c1_analyzer_profit_formula :
    (∀ (self : ArbitrageAnalyzer) (uq aq : SwapQuote) (s cex gA gB : ℚ),
      self.analyze_opportunity_with_gas uq aq s cex gA gB =
        .ok ⟨|uq.effective_price - aq.effective_price| * s, gA + gB,
             |uq.effective_price - aq.effective_price| * s - (gA + gB),
             if 0 < |uq.effective_price - aq.effective_price| * s - (gA + gB)
             then .arbitrageDetected else .noArbitrage⟩) ∧
    (∀ (self : ArbitrageAnalyzer) (uq aq : SwapQuote) (s cex gA gB : ℚ)
        (summary : ArbitrageSummary),
      self.analyze_opportunity_with_gas uq aq s cex gA gB = .ok summary →
      (summary.recommended_action = RecommendedAction.arbitrageDetected ↔
        0 < summary.net_profit_usd)) ∧
    ArbitrageAnalyzer.new.analyze_opportunity_with_gas
      ⟨30100, 3010, 0, 150000⟩ ⟨30000, 3000, 0, 80000⟩ 10 3000 5 3 =
      .ok ⟨100, 8, 92, .arbitrageDetected⟩ := by
  refine ⟨fun _ _ _ _ _ _ _ => rfl, ?_,
    by simp only [ArbitrageAnalyzer.analyze_opportunity_with_gas]; norm_num⟩
  intro self uq aq s cex gA gB summary h
  simp only [ArbitrageAnalyzer.analyze_opportunity_with_gas,
    Except.ok.injEq] at h
  subst h
  by_cases hnet :
      0 < |uq.effective_price - aq.effective_price| * s - (gA + gB) <;>
    simp [hnet]

theorem c1_analyzer_profit_formula_witness :
    ((⟨100, 8, 92, RecommendedAction.arbitrageDetected⟩ :
        ArbitrageSummary).recommended_action =
      RecommendedAction.arbitrageDetected ↔
      0 < (⟨100, 8, 92, RecommendedAction.arbitrageDetected⟩ :
        ArbitrageSummary).net_profit_usd) :=
  c1_analyzer_profit_formula.2.1 .new ⟨30100, 3010, 0, 150000⟩
    ⟨30000, 3000, 0, 80000⟩ 10 3000 5 3
    ⟨100, 8, 92, RecommendedAction.arbitrageDetected⟩
    (by simp only [ArbitrageAnalyzer.analyze_opportunity_with_gas]; norm_num)

/-- C5: the gas estimator computes `gasPrice = baseFee + priorityFee`,
`bufferedGasUnits = typicalGasUnits * 110 / 100` in integer arithmetic,
and `costNative = bufferedGasUnits * gasPrice` (plus the L1 data fee on
the Base rollup only) divided by `10^18`, with `costReference =
costNative * referenceAssetPrice`; concretely `baseFee = 10^10 wei`,
`priorityFee = 10^9 wei`, `typicalGasUnits = 150000` gives
`bufferedGasUnits = 165000` and `costNative` exactly `0.001815` ETH. -/
theorem c5_gas_cost_estimator :
    (∀ (base_fee priority_fee : ℕ) (price : ℚ),
      estimate_gas_usd_eth_swap (some base_fee) priority_fee price =
        .ok (((150000 * 110 / 100 * (base_fee + priority_fee) : ℕ) : ℚ) /
          1000000000000000000 * price)) ∧
    (∀ (base_fee priority_fee l1_fee : ℕ) (price : ℚ),
      estimate_gas_usd_base_swap (some base_fee) priority_fee l1_fee price =
        .ok (((80000 * 110 / 100 * (base_fee + priority_fee) + l1_fee :
            ℕ) : ℚ) / 1000000000000000000 * price)) ∧
    get_typical_swap_gas 1 = .ok 150000 ∧
    get_typical_swap_gas 8453 = .ok 80000 ∧
    (150000 * 110 / 100 : ℕ) = 165000 ∧
    estimate_gas_usd_eth_swap (some 10000000000) 1000000000 1 =
      .ok (1815 / 10 ^ 6) := by
  refine ⟨fun _ _ _ => rfl, fun _ _ _ _ => rfl, rfl, rfl, rfl, ?_⟩
  show Except.ok ((165000 * 11000000000 : ℕ) / 1000000000000000000 * 1 : ℚ)
      = Except.ok (1815 / 10 ^ 6 : ℚ)
  norm_num

/-- C8 (amended): the analyzer stores the reference price as mutable
state (`update_eth_price` writes it and `wei_to_usd` reads it), but the
top-level analysis call takes the reference price as an explicit
parameter and its `ArbitrageSummary` output is independent of the stored
price: identical explicit arguments yield identical summaries for any
two internally stored prices. -/
theorem c8_summary_independent_of_stored_price :
    ∀ (stored1 stored2 : ℚ) (uq aq : SwapQuote) (s cex gA gB : ℚ),
      (⟨stored1⟩ : ArbitrageAnalyzer).analyze_opportunity_with_gas
          uq aq s cex gA gB =
        (⟨stored2⟩ : ArbitrageAnalyzer).analyze_opportunity_with_gas
          uq aq s cex gA gB :=
  fun _ _ _ _ _ _ _ _ => rfl

theorem c8_price_is_cached_counterexample :
    (ArbitrageAnalyzer.new.update_eth_price 3000).wei_to_usd
        1000000000000000000 ≠
      ArbitrageAnalyzer.new.wei_to_usd 1000000000000000000 := by
  simp only [ArbitrageAnalyzer.wei_to_usd, ArbitrageAnalyzer.new,
    ArbitrageAnalyzer.update_eth_price, ne_eq, Except.ok.injEq]
  norm_num

/-- C9: in the constant-product output computation, any zero reserve
yields the insufficient-liquidity error, the division-by-zero error is
never returned (under the zero-reserve check the combined denominator
`reserveIn + feeAdjustedInput` is nonzero), and for nonzero reserves the
division is performed with a nonzero denominator. -/
theorem c9_division_by_zero_unreachable :
    (∀ amount_in reserve_in reserve_out : ℕ,
      reserve_in = 0 ∨ reserve_out = 0 →
      Aerodrome.get_amount_out amount_in reserve_in reserve_out =
        .error (.calculationError "Insufficient liquidity")) ∧
    (∀ amount_in reserve_in reserve_out : ℕ,
      Aerodrome.get_amount_out amount_in reserve_in reserve_out ≠
        .error (.calculationError "Division by zero")) ∧
    (∀ amount_in reserve_in reserve_out : ℕ,
      reserve_in ≠ 0 → reserve_out ≠ 0 →
      reserve_in + amount_in * 9999 / 10000 ≠ 0 ∧
      Aerodrome.get_amount_out amount_in reserve_in reserve_out =
        .ok (amount_in * 9999 / 10000 * reserve_out /
          (reserve_in + amount_in * 9999 / 10000))) := by
  refine ⟨?_, ?_, ?_⟩
  · intro a ri ro h
    simp [Aerodrome.get_amount_out, h]
  · intro a ri ro
    by_cases h : ri = 0 ∨ ro = 0
    · simp [Aerodrome.get_amount_out, h]
    · have hden : ri + a * 9999 / 10000 ≠ 0 := by
        rcases not_or.1 h with ⟨h1, _⟩
        omega
      simp [Aerodrome.get_amount_out, h, hden]
  · intro a ri ro h1 h2
    have hden : ri + a * 9999 / 10000 ≠ 0 := by omega
    refine ⟨hden, ?_⟩
    simp [Aerodrome.get_amount_out, h1, h2, hden]

theorem c9_division_by_zero_unreachable_witness :
    Aerodrome.get_amount_out 5 0 7 =
        .error (.calculationError "Insufficient liquidity") ∧
      (3 + 5 * 9999 / 10000 ≠ 0 ∧
        Aerodrome.get_amount_out 5 3 7 =
          .ok (5 * 9999 / 10000 * 7 / (3 + 5 * 9999 / 10000))) :=
  ⟨c9_division_by_zero_unreachable.1 5 0 7 (Or.inl rfl),
   c9_division_by_zero_unreachable.2.2 5 3 7 (by decide) (by decide)⟩

/-- C3 (amended): the sqrt-price decoder reads the tick from the low 3
bytes of the second 32-byte word as a two's-complement 24-bit value,
sign-extending from bit 23 of that 3-byte window (the decoded tick `t`
satisfies `-2^23 ≤ t < 2^23` and `t ≡ val mod 2^24` for `val` the
unsigned 24-bit reading); concretely, the low-3-byte tick pattern
`[0x00, 0x80, 0x00]` decodes to tick `32768`, and `[0x00, 0x00, 0x0A]`
decodes to tick `10`. -/
theorem c3_tick_sign_extension :
    (∀ result : List ℕ, 128 ≤ result.length →
      UniswapV4.read_slot0 result =
        .ok (beBytesToNat (result.take 32),
          UniswapV4.decode_tick_i24 (result.getD 61 0) (result.getD 62 0)
            (result.getD 63 0),
          UniswapV4.decode_fee24 (result.getD 93 0) (result.getD 94 0)
            (result.getD 95 0),
          UniswapV4.decode_fee24 (result.getD 125 0) (result.getD 126 0)
            (result.getD 127 0))) ∧
    (∀ b29 b30 b31 : ℕ, b29 < 256 → b30 < 256 → b31 < 256 →
      UniswapV4.decode_tick_i24 b29 b30 b31 =
        (if 2 ^ 23 ≤ (b29 : ℤ) * 65536 + (b30 : ℤ) * 256 + (b31 : ℤ) then
          (b29 : ℤ) * 65536 + (b30 : ℤ) * 256 + (b31 : ℤ) - 2 ^ 24
        else (b29 : ℤ) * 65536 + (b30 : ℤ) * 256 + (b31 : ℤ)) ∧
      -2 ^ 23 ≤ UniswapV4.decode_tick_i24 b29 b30 b31 ∧
      UniswapV4.decode_tick_i24 b29 b30 b31 < 2 ^ 23 ∧
      UniswapV4.decode_tick_i24 b29 b30 b31 % 2 ^ 24 =
        (b29 : ℤ) * 65536 + (b30 : ℤ) * 256 + (b31 : ℤ)) ∧
    UniswapV4.decode_tick_i24 0 128 0 = 32768 ∧
    UniswapV4.decode_tick_i24 0 0 10 = 10 := by
  refine ⟨?_, ?_, by decide, by decide⟩
  · intro result h
    rw [UniswapV4.read_slot0, if_neg (by omega)]
  · intro b29 b30 b31 h29 h30 h31
    refine ⟨?_, ?_, ?_, ?_⟩ <;>
      simp only [UniswapV4.decode_tick_i24] <;> split_ifs <;> omega

theorem c3_tick_sign_extension_witness :
    UniswapV4.decode_tick_i24 255 0 0 =
        (if 2 ^ 23 ≤ (255 : ℤ) * 65536 + (0 : ℤ) * 256 + (0 : ℤ) then
          (255 : ℤ) * 65536 + (0 : ℤ) * 256 + (0 : ℤ) - 2 ^ 24
        else (255 : ℤ) * 65536 + (0 : ℤ) * 256 + (0 : ℤ)) ∧
      -2 ^ 23 ≤ UniswapV4.decode_tick_i24 255 0 0 ∧
      UniswapV4.decode_tick_i24 255 0 0 < 2 ^ 23 ∧
      UniswapV4.decode_tick_i24 255 0 0 % 2 ^ 24 =
        (255 : ℤ) * 65536 + (0 : ℤ) * 256 + (0 : ℤ) :=
  c3_tick_sign_extension.2.1 255 0 0 (by decide) (by decide) (by decide)

theorem c3_tick_pattern_counterexample :
    UniswapV4.decode_tick_i24 0 128 0 = 32768 ∧
      UniswapV4.decode_tick_i24 0 128 0 ≠ -65536 := by
  decide

/-- C4 (amended): any decoded reserve pair containing a zero raises the
no-liquidity error on the constant-product venue (never a silent
degenerate quote), but the concentrated-liquidity venue's liquidity read
performs no zero check: it returns the decoded value, zero included, as
a successful result. -/
theorem c4_zero_liquidity_handling :
    (∀ result : List ℕ, 64 ≤ result.length →
      beBytesToNat (result.take 32) = 0 ∨
        beBytesToNat ((result.drop 32).take 32) = 0 →
      Aerodrome.get_reserves result =
        .error (.contractError "Pool has no liquidity")) ∧
    (∀ result : List ℕ, 32 ≤ result.length →
      UniswapV4.read_liquidity result =
        .ok (beBytesToNat (result.take 32))) := by
  constructor
  · intro result hlen hzero
    rw [Aerodrome.get_reserves, if_neg (by omega)]
    simp only [hzero, if_pos]
  · intro result hlen
    rw [UniswapV4.read_liquidity, if_neg (by omega)]

theorem c4_zero_liquidity_handling_witness :
    Aerodrome.get_reserves (List.replicate 64 0) =
        .error (.contractError "Pool has no liquidity") ∧
      UniswapV4.read_liquidity (List.replicate 32 0) =
        .ok (beBytesToNat ((List.replicate 32 0).take 32)) :=
  ⟨c4_zero_liquidity_handling.1 (List.replicate 64 0) (by decide)
      (Or.inl (by decide)),
   c4_zero_liquidity_handling.2 (List.replicate 32 0) (by decide)⟩

/-- C2: for every positive reserve pair and every input amount whose
wei scaling (input times `10^18`, rounded to the nearest integer) is a
representable `u128`, the constant-product calculator computes, in the
smallest-unit integer domain, a fee-adjusted input equal to
`input * 9999 / 10000` and an output equal to
`feeAdjustedInput * reserveOut / (reserveIn + feeAdjustedInput)` with
truncating integer division, scaled back down by `10^6`. -/
theorem c2_constant_product_integer_domain :
    ∀ (reserve0 reserve1 : ℕ) (amount_in : ℚ) (zero_for_one : Bool),
      0 < reserve0 → 0 < reserve1 →
      0 ≤ round_dp0 (amount_in * 1000000000000000000) →
      round_dp0 (amount_in * 1000000000000000000) < 2 ^ 128 →
      let wei := (round_dp0 (amount_in * 1000000000000000000)).toNat
      let reserve_in := if zero_for_one then reserve0 else reserve1
      let reserve_out := if zero_for_one then reserve1 else reserve0
      let fee_adjusted := wei * 9999 / 10000
      Aerodrome.get_amount_out wei reserve_in reserve_out =
        .ok (fee_adjusted * reserve_out / (reserve_in + fee_adjusted)) ∧
      (Aerodrome.calculate_swap_output reserve0 reserve1 amount_in
            zero_for_one).map SwapQuote.amount_out =
        .ok (((fee_adjusted * reserve_out / (reserve_in + fee_adjusted) :
          ℕ) : ℚ) / 1000000) := by
  intro reserve0 reserve1 amount_in zero_for_one h0 h1 hnn hlt
  intro wei reserve_in reserve_out fee_adjusted
  have hri : reserve_in ≠ 0 := by
    simp only [reserve_in]; cases zero_for_one <;> simp <;> omega
  have hro : reserve_out ≠ 0 := by
    simp only [reserve_out]; cases zero_for_one <;> simp <;> omega
  have key : Aerodrome.get_amount_out wei reserve_in reserve_out =
      .ok (fee_adjusted * reserve_out / (reserve_in + fee_adjusted)) := by
    rw [Aerodrome.get_amount_out, if_neg (by simp [hri, hro])]
    simp only [fee_adjusted]
    rw [if_neg (by omega)]
  refine ⟨key, ?_⟩
  rw [Aerodrome.calculate_swap_output,
    if_neg (by simp only [not_or, not_lt, not_le]; exact ⟨hnn, hlt⟩)]
  simp only [wei, reserve_in, reserve_out, fee_adjusted] at key ⊢
  rw [key]
  rfl

theorem c2_constant_product_integer_domain_witness :
    (let wei := (round_dp0 ((1 : ℚ) * 1000000000000000000)).toNat
     let reserve_in := if (true : Bool) then (1000 : ℕ) else 2000
     let reserve_out := if (true : Bool) then (2000 : ℕ) else 1000
     let fee_adjusted := wei * 9999 / 10000
     Aerodrome.get_amount_out wei reserve_in reserve_out =
        .ok (fee_adjusted * reserve_out / (reserve_in + fee_adjusted)) ∧
      (Aerodrome.calculate_swap_output 1000 2000 1 true).map
          SwapQuote.amount_out =
        .ok (((fee_adjusted * reserve_out / (reserve_in + fee_adjusted) :
          ℕ) : ℚ) / 1000000)) :=
  c2_constant_product_integer_domain 1000 2000 1 true (by decide) (by decide)
    (by rw [show ((1 : ℚ) * 1000000000000000000) =
          ((1000000000000000000 : ℤ) : ℚ) by norm_num, round_dp0_intCast]
        norm_num)
    (by rw [show ((1 : ℚ) * 1000000000000000000) =
          ((1000000000000000000 : ℤ) : ℚ) by norm_num, round_dp0_intCast]
        norm_num)

theorem c4_v4_zero_liquidity_counterexample :
    UniswapV4.read_liquidity (List.replicate 32 0) = .ok 0 ∧
      UniswapV4.get_pool_state_internal (List.replicate 128 0)
        (List.replicate 32 0) = .ok ⟨0, 0, 0, 0⟩ := by
  decide

/-- C6 (amended): for every pool state and every non-negative input
amount, the concentrated-liquidity calculator computes spot price
`(sqrtPriceX96 / 2^96)^2` scaled by `10^12`, price impact
`(amountIn / 10) * 0.001`, effective price `spot * (1 - impact)` when
swapping the base asset in and `spot * (1 + impact)` otherwise, raw
output `amountIn * effectivePrice` (respectively
`amountIn / effectivePrice`), and final output
`rawOutput * (1 - fee / 1000000)`. -/
theorem c6_concentrated_liquidity_formulas :
    ∀ (pool_state : PoolState) (amount_in : ℚ) (zero_for_one : Bool),
      0 ≤ amount_in →
      let spot_price :=
        ((pool_state.sqrt_price_x96 : ℚ) / 2 ^ 96) ^ 2 * 10 ^ 12
      let price_impact := amount_in / 10 * (1 / 1000)
      let effective_price :=
        if zero_for_one then spot_price * (1 - price_impact)
        else spot_price * (1 + price_impact)
      let raw_out :=
        if zero_for_one then amount_in * effective_price
        else amount_in / effective_price
      UniswapV4.calculate_swap_output pool_state amount_in zero_for_one =
        ⟨raw_out * (1 - (pool_state.fee : ℚ) / 1000000),
         effective_price, price_impact, 150000⟩ := by
  intro pool_state amount_in zero_for_one ha
  intro spot_price price_impact effective_price raw_out
  have himp : (if 0 < amount_in then amount_in / 10 * (1 / 1000) else 0) =
      price_impact := by
    rcases eq_or_lt_of_le ha with h | h
    · simp only [price_impact, ← h]; norm_num
    · simp only [price_impact, if_pos h]
  have hspot : ((pool_state.sqrt_price_x96 : ℚ) / 2 ^ 96) *
      ((pool_state.sqrt_price_x96 : ℚ) / 2 ^ 96) * 1000000000000 =
      spot_price := by
    simp only [spot_price]; ring
  simp only [UniswapV4.calculate_swap_output, himp, hspot]

theorem c6_concentrated_liquidity_formulas_witness :
    (let spot_price :=
       (((⟨2 ^ 96, 0, 10, 500⟩ : PoolState).sqrt_price_x96 : ℚ) / 2 ^ 96) ^
         2 * 10 ^ 12
     let price_impact := (3 : ℚ) / 10 * (1 / 1000)
     let effective_price :=
       if (true : Bool) then spot_price * (1 - price_impact)
       else spot_price * (1 + price_impact)
     let raw_out :=
       if (true : Bool) then (3 : ℚ) * effective_price
       else (3 : ℚ) / effective_price
     UniswapV4.calculate_swap_output ⟨2 ^ 96, 0, 10, 500⟩ 3 true =
       ⟨raw_out * (1 - ((⟨2 ^ 96, 0, 10, 500⟩ : PoolState).fee : ℚ) /
           1000000),
        effective_price, price_impact, 150000⟩) :=
  c6_concentrated_liquidity_formulas ⟨2 ^ 96, 0, 10, 500⟩ 3 true
    (by norm_num)

theorem c6_negative_input_counterexample :
    (UniswapV4.calculate_swap_output ⟨2 ^ 96, 0, 1000000000000000000, 500⟩
        (-10) true).price_impact = 0 ∧
      ((-10 : ℚ) / 10 * (1 / 1000) ≠ 0) := by
  constructor
  · norm_num [UniswapV4.calculate_swap_output]
  · norm_num

/-- C10 (amended): for an input amount of exactly zero and a pool with
nonzero sqrt price, the concentrated-liquidity calculator does not
fail: it returns a quote with price impact exactly zero, effective
price exactly the computed spot price (no impact adjustment in either
direction), and amount out zero after the fee multiplication —
zero-amount quote requests are not rejected as errors on this venue. -/
theorem c10_zero_input_quote :
    ∀ (pool_state : PoolState) (zero_for_one : Bool),
      0 < pool_state.sqrt_price_x96 →
      UniswapV4.calculate_swap_output pool_state 0 zero_for_one =
        ⟨0, ((pool_state.sqrt_price_x96 : ℚ) / 2 ^ 96) ^ 2 * 10 ^ 12, 0,
         150000⟩ := by
  intro pool_state zero_for_one hpos
  cases zero_for_one <;>
    · simp only [UniswapV4.calculate_swap_output, SwapQuote.mk.injEq]
      norm_num
      ring

theorem c10_zero_input_quote_witness :
    UniswapV4.calculate_swap_output ⟨2 ^ 96, 0, 10, 500⟩ 0 true =
      ⟨0, (((⟨2 ^ 96, 0, 10, 500⟩ : PoolState).sqrt_price_x96 : ℚ) /
          2 ^ 96) ^ 2 * 10 ^ 12, 0, 150000⟩ :=
  c10_zero_input_quote ⟨2 ^ 96, 0, 10, 500⟩ true (by norm_num)

theorem c10_negative_input_counterexample :
    (UniswapV4.calculate_swap_output ⟨2 ^ 96, 0, 1000000000000000000, 500⟩
        (-1) true).amount_out = -999500000000 ∧
      (-999500000000 : ℚ) ≠ 0 := by
  constructor
  · norm_num [UniswapV4.calculate_swap_output]
  · norm_num

/-- C7 (amended): for every fixed pair of positive reserves and every
positive input amount `a`, the exact-arithmetic effective price of the
fee-adjusted constant-product formula (truncating divisions replaced by
exact rational division) for input `2a` is strictly less than for input
`a` (diminishing returns); the deployed truncating integer computation
only approximates this and can return equal effective prices for
distinct inputs, e.g. when both outputs truncate to zero. -/
theorem c7_exact_diminishing_returns :
    ∀ (reserve_in reserve_out amount_in : ℚ),
      0 < reserve_in → 0 < reserve_out → 0 < amount_in →
      Aerodrome.effective_price_exact reserve_in reserve_out
          (2 * amount_in) <
        Aerodrome.effective_price_exact reserve_in reserve_out amount_in := by
  intro ri ro a hri hro ha
  have h1 : 0 < ri + a * (9999 / 10000) := by nlinarith
  have h2 : 0 < ri + 2 * a * (9999 / 10000) := by nlinarith
  simp only [Aerodrome.effective_price_exact]
  rw [div_div, div_div,
    div_lt_div_iff₀ (mul_pos h2 (by linarith)) (mul_pos h1 ha)]
  nlinarith [mul_pos (mul_pos (mul_pos ha ha) ha) hro]

theorem c7_exact_diminishing_returns_witness :
    Aerodrome.effective_price_exact 5 7 (2 * 1) <
      Aerodrome.effective_price_exact 5 7 1 :=
  c7_exact_diminishing_returns 5 7 1 (by norm_num) (by norm_num)
    (by norm_num)

theorem c7_truncation_counterexample :
    Aerodrome.calculate_swap_output (10 ^ 28) 1 1 true =
        .ok ⟨0, 0, 100, 80000⟩ ∧
      Aerodrome.calculate_swap_output (10 ^ 28) 1 2 true =
        .ok ⟨0, 0, 100, 80000⟩ ∧
      ¬((0 : ℚ) < 0) := by
  have hr1 : round_dp0 ((1 : ℚ) * 1000000000000000000) =
      1000000000000000000 := by
    rw [show ((1 : ℚ) * 1000000000000000000) =
        ((1000000000000000000 : ℤ) : ℚ) by norm_num, round_dp0_intCast]
  have hr2 : round_dp0 ((2 : ℚ) * 1000000000000000000) =
      2000000000000000000 := by
    rw [show ((2 : ℚ) * 1000000000000000000) =
        ((2000000000000000000 : ℤ) : ℚ) by norm_num, round_dp0_intCast]
  have hg1 : Aerodrome.get_amount_out (Int.toNat 1000000000000000000)
      10000000000000000000000000000 1 = .ok 0 := by decide
  have hg2 : Aerodrome.get_amount_out (Int.toNat 2000000000000000000)
      10000000000000000000000000000 1 = .ok 0 := by decide
  refine ⟨?_, ?_, lt_irrefl 0⟩
  · rw [Aerodrome.calculate_swap_output, hr1]
    norm_num [calculate_price_impact]
    rw [hg1]
    norm_num
  · rw [Aerodrome.calculate_swap_output, hr2]
    norm_num [calculate_price_impact]
    rw [hg2]
    norm_num
